import Mathlib

/-!
Verification of the taxi24 ride-dispatch core against its specification.

The repository's files at hand are `core/tests.py` and `core/serializers.py`.
The core modules they exercise (`core/models.py`, `core/services.py`,
`core/views.py`) are not among the given sources, so the geodistance
function, the proximity filter, the driver registry and the trip lifecycle
are modelled from the specification's own description (spec sections 3, 4
and 6), with real numbers standing for the double-precision coordinates.
The serializer layer is embedded directly from `core/serializers.py`.
-/

/-- Modelled from the spec: degree-to-radian conversion used by the haversine
formula of section 4.1 (`core/services.py` is not among the given sources). -/
noncomputable def radians (deg : ℝ) : ℝ := deg * Real.pi / 180

/-- Modelled from the spec: section 4.1 Geodistance,
`a = sin²(Δlat/2) + cos(lat1)·cos(lat2)·sin²(Δlon/2)`,
`d = 2·R·asin(√a)` with `R = 6371` km (`core/services.py` is not among the
given sources; the test suite calls it `calculate_haversine_distance`). -/
noncomputable def calculate_haversine_distance (lat1 lon1 lat2 lon2 : ℝ) : ℝ :=
  2 * 6371 * Real.arcsin (Real.sqrt
    (Real.sin (radians (lat2 - lat1) / 2) ^ 2 +
      Real.cos (radians lat1) * Real.cos (radians lat2) *
        Real.sin (radians (lon2 - lon1) / 2) ^ 2))

/-- Driver status enum of the data model (spec section 3). -/
inductive DriverStatus
  | AVAILABLE
  | UNAVAILABLE
  deriving DecidableEq

/-- Trip status enum of the data model (spec section 3). -/
inductive TripStatus
  | ACTIVE
  | END
  deriving DecidableEq

/-- Modelled from the spec: Driver record of section 3 — identifier, current
position, status (the inert personal/vehicle attributes `dni`, `name`,
`manufacturer`, `model`, `plate` named by the serializer are not used by any
core operation and are left out of the state). -/
structure Driver where
  id : Nat
  lat : ℝ
  lon : ℝ
  status : DriverStatus

/-- Modelled from the spec: Passenger record of section 3. -/
structure Passenger where
  id : Nat
  name : String
  lat : ℝ
  lon : ℝ

/-- Modelled from the spec: Trip record of section 3 (the storage-generated
creation timestamp is metadata fixed at insert, not a computed field; it is
treated at the serializer layer, see `tripModelFields`). -/
structure Trip where
  id : Nat
  source_lat : ℝ
  source_lon : ℝ
  destination_lat : ℝ
  destination_lon : ℝ
  cost : ℝ
  distance : ℝ
  status : TripStatus
  driver : Nat
  passenger : Nat

/-- Modelled from the spec: Bill record of section 3 — reference to a Trip
and the monetary cost. -/
structure Bill where
  id : Nat
  trip : Nat
  cost : ℝ

/-- The error kinds of spec section 7 that the modelled operations reach. -/
inductive Err
  | NotFound
  | InvalidState
  deriving DecidableEq

/-- Modelled from the spec: the shared driver/passenger/trip/bill store the
persistence collaborator holds (spec sections 5 and 6). -/
structure Store where
  drivers : List Driver
  passengers : List Passenger
  trips : List Trip
  bills : List Bill

/-- Modelled from the spec: `findDriver(id)` of section 6. -/
def findDriver (st : Store) (i : Nat) : Option Driver :=
  st.drivers.find? fun d => d.id == i

/-- Modelled from the spec: `findPassenger(id)` of section 6. -/
def findPassenger (st : Store) (i : Nat) : Option Passenger :=
  st.passengers.find? fun p => p.id == i

/-- Modelled from the spec: `findTrip(id)` of section 6. -/
def findTrip (st : Store) (i : Nat) : Option Trip :=
  st.trips.find? fun t => t.id == i

/-- Update in place every record whose key equals `i`, keeping list order. -/
def updateBy {α : Type} (key : α → Nat) (i : Nat) (f : α → α)
    (l : List α) : List α :=
  l.map fun x => if key x == i then f x else x

/-- Modelled from the spec: registry mutation `setStatus(id, status)` of
section 4.3. -/
def setDriverStatus (st : Store) (i : Nat) (s : DriverStatus) : Store :=
  { st with drivers :=
      updateBy Driver.id i (fun d => { d with status := s }) st.drivers }

/-- Modelled from the spec: registry mutation `setPosition(id, lat, lon)` of
section 4.3. -/
def setDriverPosition (st : Store) (i : Nat) (lat lon : ℝ) : Store :=
  { st with drivers :=
      updateBy Driver.id i (fun d => { d with lat := lat, lon := lon }) st.drivers }

/-- Modelled from the spec: passenger relocation on trip end (spec section
4.4, EndTrip step 5). -/
def setPassengerPosition (st : Store) (i : Nat) (lat lon : ℝ) : Store :=
  { st with passengers :=
      updateBy Passenger.id i (fun p => { p with lat := lat, lon := lon }) st.passengers }

/-- Modelled from the spec: trip status transition (spec section 4.4,
EndTrip step 3). -/
def setTripStatus (st : Store) (i : Nat) (s : TripStatus) : Store :=
  { st with trips :=
      updateBy Trip.id i (fun t => { t with status := s }) st.trips }

/-- Modelled from the spec: `save` of a new Trip (section 6), an insert into
the store. -/
def saveTrip (st : Store) (t : Trip) : Store :=
  { st with trips := st.trips ++ [t] }

/-- Modelled from the spec: `save` of a new Bill (section 6), an insert into
the store. -/
def saveBill (st : Store) (b : Bill) : Store :=
  { st with bills := st.bills ++ [b] }

/-- Modelled from the spec: ProximityFilter `within_radius` of section 4.2 —
the order-preserving subsequence of the input within `radiusKm` of the
reference point. -/
noncomputable def within_radius {α : Type} (pLat pLon : α → ℝ)
    (entities : List α) (refLat refLon radiusKm : ℝ) : List α :=
  entities.filter fun e =>
    decide (calculate_haversine_distance (pLat e) (pLon e) refLat refLon ≤ radiusKm)

/-- Modelled from the spec: DriverRegistry `listNear(lat, lon, radiusKm,
statusFilter?)` of section 4.3 — ProximityFilter composed with the optional
exact-match status filter. -/
noncomputable def listNear (drivers : List Driver) (lat lon radiusKm : ℝ)
    (statusFilter : Option DriverStatus) : List Driver :=
  let near := within_radius Driver.lat Driver.lon drivers lat lon radiusKm
  match statusFilter with
  | none => near
  | some s => near.filter fun d => decide (d.status = s)

/-- Modelled from the spec: `CreateTrip` of section 4.4. The pricing policy
is collaborator-supplied (step 4) and the persisted id is storage-generated
(section 6), so both are parameters. On an error no write is performed:
the returned store is the input store. -/
noncomputable def createTrip (pricing : ℝ → ℝ) (st : Store) (tripId : Nat)
    (source_lat source_lon destination_lat destination_lon : ℝ)
    (passengerId driverId : Nat) : Except Err Trip × Store :=
  match findPassenger st passengerId with
  | none => (Except.error Err.NotFound, st)
  | some _ =>
    match findDriver st driverId with
    | none => (Except.error Err.NotFound, st)
    | some d =>
      if d.status = DriverStatus.AVAILABLE then
        let dist := calculate_haversine_distance source_lat source_lon
          destination_lat destination_lon
        let trip : Trip :=
          { id := tripId, source_lat := source_lat, source_lon := source_lon,
            destination_lat := destination_lat, destination_lon := destination_lon,
            cost := pricing dist, distance := dist, status := TripStatus.ACTIVE,
            driver := driverId, passenger := passengerId }
        (Except.ok trip,
          saveTrip (setDriverStatus st driverId DriverStatus.UNAVAILABLE) trip)
      else (Except.error Err.InvalidState, st)

/-- Modelled from the spec: `EndTrip` of section 4.4 — set the trip to END,
relocate driver and passenger to the destination, free the driver, create
the Bill with the trip's frozen cost. The bill id is storage-generated
(section 6), so it is a parameter. On an error no write is performed. -/
def endTrip (st : Store) (tripId : Nat) (billId : Nat) : Except Err Trip × Store :=
  match findTrip st tripId with
  | none => (Except.error Err.NotFound, st)
  | some t =>
    if t.status = TripStatus.END then (Except.error Err.InvalidState, st)
    else
      let st1 := setTripStatus st t.id TripStatus.END
      let st2 := setDriverPosition st1 t.driver t.destination_lat t.destination_lon
      let st3 := setPassengerPosition st2 t.passenger t.destination_lat t.destination_lon
      let st4 := setDriverStatus st3 t.driver DriverStatus.AVAILABLE
      (Except.ok { t with status := TripStatus.END },
        saveBill st4 { id := billId, trip := t.id, cost := t.cost })

/-- Modelled from the spec: `closestAvailableDrivers(passengerId, radiusKm)`
of section 6 — the drivers near the passenger's position restricted to
status AVAILABLE, with the caller supplying the radius. -/
noncomputable def closestAvailableDrivers (st : Store) (passengerId : Nat)
    (radiusKm : ℝ) : Except Err (List Driver) :=
  match findPassenger st passengerId with
  | none => Except.error Err.NotFound
  | some p =>
    Except.ok (listNear st.drivers p.lat p.lon radiusKm (some DriverStatus.AVAILABLE))

/-- The four models of the core app (the import list of `core/tests.py`). -/
inductive CoreModel
  | Driver
  | Passenger
  | Trip
  | Bill
  deriving DecidableEq

/-- A model serializer as declared in `core/serializers.py`: the model it
serializes and its exposed field names. -/
structure ModelSerializer where
  model : CoreModel
  fields : List String

/-- `DriverSerializer` of `core/serializers.py`. -/
def DriverSerializer : ModelSerializer :=
  { model := CoreModel.Driver,
    fields := ["id", "dni", "name", "manufacturer", "model", "plate", "lat",
      "lon", "status"] }

/-- `PassengerSerializer` of `core/serializers.py`. -/
def PassengerSerializer : ModelSerializer :=
  { model := CoreModel.Passenger,
    fields := ["id", "name", "lat", "lon"] }

/-- `TripSerializer` of `core/serializers.py`. -/
def TripSerializer : ModelSerializer :=
  { model := CoreModel.Trip,
    fields := ["id", "source_lat", "source_lon", "destination_lat",
      "destination_lon", "cost", "distance", "status", "driver", "passenger"] }

/-- The serializers `core/serializers.py` declares, in file order: one each
for Driver, Passenger and Trip, and none for Bill. -/
def coreSerializers : List ModelSerializer :=
  [DriverSerializer, PassengerSerializer, TripSerializer]

/-- Modelled from the spec: the fields of the Trip data model of section 3,
which carries a creation timestamp (`created`, the ordering key
`core/tests.py` line 173 uses) on top of the serialized fields
(`core/models.py` is not among the given sources). -/
def tripModelFields : List String :=
  ["id", "source_lat", "source_lon", "destination_lat", "destination_lon",
    "cost", "distance", "status", "driver", "passenger", "created"]

/-- A concrete available driver, for evaluating the operations. -/
def dAvail : Driver :=
  { id := 1, lat := 0, lon := 0, status := DriverStatus.AVAILABLE }

/-- A concrete driver already on a trip, for evaluating the operations. -/
def dBusy : Driver :=
  { id := 2, lat := 0, lon := 0, status := DriverStatus.UNAVAILABLE }

/-- A concrete passenger, for evaluating the operations. -/
def pSample : Passenger := { id := 1, name := "P", lat := 0, lon := 0 }

/-- A concrete active trip of `dBusy` and `pSample`, for evaluating the
operations. -/
def tActive : Trip :=
  { id := 1, source_lat := 0, source_lon := 0, destination_lat := 2,
    destination_lon := 3, cost := 10, distance := 4,
    status := TripStatus.ACTIVE, driver := 2, passenger := 1 }

/-- A concrete already-ended trip, for evaluating the operations. -/
def tEnded : Trip := { tActive with id := 2, status := TripStatus.END }

/-- A concrete store holding the sample records. -/
def stSample : Store :=
  { drivers := [dAvail, dBusy], passengers := [pSample],
    trips := [tActive, tEnded], bills := [] }

lemma radians_zero : radians 0 = 0 := by
  unfold radians; ring

lemma haversine_self (lat lon : ℝ) :
    calculate_haversine_distance lat lon lat lon = 0 := by
  unfold calculate_haversine_distance
  rw [sub_self, sub_self, radians_zero]
  simp

lemma haversine_symm (lat1 lon1 lat2 lon2 : ℝ) :
    calculate_haversine_distance lat1 lon1 lat2 lon2 =
      calculate_haversine_distance lat2 lon2 lat1 lon1 := by
  unfold calculate_haversine_distance
  rw [show radians (lat1 - lat2) / 2 = -(radians (lat2 - lat1) / 2) by
        unfold radians; ring,
      show radians (lon1 - lon2) / 2 = -(radians (lon2 - lon1) / 2) by
        unfold radians; ring,
      Real.sin_neg, Real.sin_neg]
  ring_nf

lemma haversine_nonneg (lat1 lon1 lat2 lon2 : ℝ) :
    0 ≤ calculate_haversine_distance lat1 lon1 lat2 lon2 := by
  unfold calculate_haversine_distance
  have h : (0:ℝ) ≤ Real.arcsin (Real.sqrt
      (Real.sin (radians (lat2 - lat1) / 2) ^ 2 +
        Real.cos (radians lat1) * Real.cos (radians lat2) *
          Real.sin (radians (lon2 - lon1) / 2) ^ 2)) :=
    Real.arcsin_nonneg.mpr (Real.sqrt_nonneg _)
  nlinarith

lemma find?_updateBy_self {α : Type} (key : α → Nat) (i : Nat) (f : α → α)
    (hf : ∀ x, key (f x) = key x) :
    ∀ (l : List α) (d : α), l.find? (fun x => key x == i) = some d →
      (updateBy key i f l).find? (fun x => key x == i) = some (f d) := by
  intro l
  induction l with
  | nil => intro d h; simp [List.find?] at h
  | cons a l ih =>
    intro d h
    cases hka : key a == i with
    | true =>
      simp only [List.find?, hka, Option.some.injEq] at h
      subst h
      simp [updateBy, List.find?, hka, hf]
    | false =>
      simp only [List.find?, hka] at h
      have hrec := ih d h
      simp only [updateBy, List.map_cons] at hrec ⊢
      simp only [List.find?, hka, if_neg, Bool.false_eq_true, not_false_iff,
        ite_false]
      exact hrec

lemma findTrip_id {st : Store} {i : Nat} {t : Trip}
    (h : findTrip st i = some t) : t.id = i := by
  have hp := List.find?_some h
  simpa using hp

lemma mem_within_radius {α : Type} (pLat pLon : α → ℝ) (es : List α)
    (refLat refLon r : ℝ) (e : α) :
    e ∈ within_radius pLat pLon es refLat refLon r ↔
      e ∈ es ∧ calculate_haversine_distance (pLat e) (pLon e) refLat refLon ≤ r := by
  unfold within_radius
  simp [List.mem_filter]

lemma mem_listNear_some (drivers : List Driver) (lat lon r : ℝ)
    (s : DriverStatus) (d : Driver) :
    d ∈ listNear drivers lat lon r (some s) ↔
      d ∈ drivers ∧ calculate_haversine_distance d.lat d.lon lat lon ≤ r ∧
        d.status = s := by
  unfold listNear
  simp [List.mem_filter, mem_within_radius, and_assoc]

/-- C7: for every latitude and longitude, the haversine distance of a point
to itself is exactly zero (an exact equality, not an epsilon bound). -/
theorem haversine_point_to_itself_zero :
    ∀ lat lon : ℝ, calculate_haversine_distance lat lon lat lon = 0 :=
  fun lat lon => haversine_self lat lon

/-- C8: the haversine distance is symmetric in its two endpoints (here an
exact equality over the reals, hence within any epsilon), and every distance
it returns is non-negative. -/
theorem haversine_symmetric_and_nonneg :
    ∀ lat1 lon1 lat2 lon2 : ℝ,
      calculate_haversine_distance lat1 lon1 lat2 lon2 =
        calculate_haversine_distance lat2 lon2 lat1 lon1 ∧
      0 ≤ calculate_haversine_distance lat1 lon1 lat2 lon2 :=
  fun lat1 lon1 lat2 lon2 =>
    ⟨haversine_symm lat1 lon1 lat2 lon2, haversine_nonneg lat1 lon1 lat2 lon2⟩

/-- C6: `within_radius` is the order-preserving subsequence of its input
holding exactly the entities within the radius of the reference point (a pure
function of its arguments), and with radius 0 every returned entity is at
haversine distance exactly 0 from the reference point. -/
theorem within_radius_exact_subsequence :
    ∀ (α : Type) (pLat pLon : α → ℝ) (es : List α) (refLat refLon r : ℝ),
      List.Sublist (within_radius pLat pLon es refLat refLon r) es ∧
      (∀ e, e ∈ within_radius pLat pLon es refLat refLon r ↔
        e ∈ es ∧
          calculate_haversine_distance (pLat e) (pLon e) refLat refLon ≤ r) ∧
      (∀ e, e ∈ within_radius pLat pLon es refLat refLon 0 →
        calculate_haversine_distance (pLat e) (pLon e) refLat refLon = 0) := by
  intro α pLat pLon es refLat refLon r
  refine ⟨List.filter_sublist es, fun e => mem_within_radius pLat pLon es refLat refLon r e,
    fun e he => ?_⟩
  have h := (mem_within_radius pLat pLon es refLat refLon 0 e).mp he
  exact le_antisymm h.2 (haversine_nonneg (pLat e) (pLon e) refLat refLon)

/-- C10: a proximity query on drivers with no status filter admits every
driver within the radius, whatever its status: membership in the result is
exactly membership in the input plus the distance bound. -/
theorem listNear_no_status_filter_keeps_all_statuses :
    ∀ (drivers : List Driver) (lat lon r : ℝ) (d : Driver),
      d ∈ listNear drivers lat lon r none ↔
        d ∈ drivers ∧ calculate_haversine_distance d.lat d.lon lat lon ≤ r := by
  intro drivers lat lon r d
  exact mem_within_radius Driver.lat Driver.lon drivers lat lon r d

/-- C5: for a passenger the store holds, `closestAvailableDrivers` returns
exactly the drivers that are both within the caller-supplied radius of the
passenger's position and AVAILABLE — the intersection of the proximity
filter and the status filter. -/
theorem closestAvailableDrivers_intersection (st : Store) (pid : Nat) (r : ℝ)
    (p : Passenger) (hp : findPassenger st pid = some p) :
    ∃ l, closestAvailableDrivers st pid r = Except.ok l ∧
      ∀ d : Driver, d ∈ l ↔
        d ∈ st.drivers ∧
        calculate_haversine_distance d.lat d.lon p.lat p.lon ≤ r ∧
        d.status = DriverStatus.AVAILABLE := by
  refine ⟨listNear st.drivers p.lat p.lon r (some DriverStatus.AVAILABLE), ?_, ?_⟩
  · unfold closestAvailableDrivers
    rw [hp]
  · intro d
    exact mem_listNear_some st.drivers p.lat p.lon r DriverStatus.AVAILABLE d

/-- Witness for C5: the sample store at passenger 1 with radius 3. -/
theorem closestAvailableDrivers_intersection_witness :
    ∃ l, closestAvailableDrivers stSample 1 3 = Except.ok l ∧
      ∀ d : Driver, d ∈ l ↔
        d ∈ stSample.drivers ∧
        calculate_haversine_distance d.lat d.lon pSample.lat pSample.lon ≤ 3 ∧
        d.status = DriverStatus.AVAILABLE :=
  closestAvailableDrivers_intersection stSample 1 3 pSample rfl

/-- C2: a CreateTrip call naming an existing passenger and an existing driver
whose status is UNAVAILABLE fails with InvalidState and performs no write:
the returned store is the input store unchanged, so no Trip and no Bill is
created. -/
theorem createTrip_unavailable_driver_rejected (pricing : ℝ → ℝ) (st : Store)
    (tripId : Nat) (slat slon dlat dlon : ℝ) (pid did : Nat)
    (p : Passenger) (d : Driver)
    (hp : findPassenger st pid = some p) (hd : findDriver st did = some d)
    (hs : d.status = DriverStatus.UNAVAILABLE) :
    createTrip pricing st tripId slat slon dlat dlon pid did =
      (Except.error Err.InvalidState, st) := by
  have hne : ¬ d.status = DriverStatus.AVAILABLE := by
    rw [hs]
    intro hc
    exact DriverStatus.noConfusion hc
  unfold createTrip
  rw [hp, hd]
  exact if_neg hne

/-- Witness for C2: in the sample store, booking driver 2 (UNAVAILABLE) for
passenger 1 is rejected and the store is returned unchanged. -/
theorem createTrip_unavailable_driver_rejected_witness :
    createTrip (fun x => x) stSample 9 0 0 0 0 1 2 =
      (Except.error Err.InvalidState, stSample) :=
  createTrip_unavailable_driver_rejected (fun x => x) stSample 9 0 0 0 0 1 2
    pSample dBusy rfl rfl rfl

/-- C3: EndTrip on a trip whose status is already END fails with
InvalidState and performs no write: the returned store is the input store
unchanged, so no second Bill is created. -/
theorem endTrip_already_ended_rejected (st : Store) (tripId billId : Nat)
    (t : Trip) (ht : findTrip st tripId = some t)
    (hs : t.status = TripStatus.END) :
    endTrip st tripId billId = (Except.error Err.InvalidState, st) := by
  unfold endTrip
  rw [ht]
  exact if_pos hs

/-- Witness for C3: ending the already-ended sample trip 2 is rejected and
the store is returned unchanged. -/
theorem endTrip_already_ended_rejected_witness :
    endTrip stSample 2 8 = (Except.error Err.InvalidState, stSample) :=
  endTrip_already_ended_rejected stSample 2 8 tEnded rfl rfl

/-- C4: a CreateTrip call naming an existing passenger and an existing
AVAILABLE driver succeeds: it returns a new ACTIVE Trip whose distance is
the haversine distance from source to destination (0 when they coincide),
appends that trip to the store, turns the driver UNAVAILABLE, and leaves
the passengers untouched. -/
theorem createTrip_available_success (pricing : ℝ → ℝ) (st : Store)
    (tripId : Nat) (slat slon dlat dlon : ℝ) (pid did : Nat)
    (p : Passenger) (d : Driver)
    (hp : findPassenger st pid = some p) (hd : findDriver st did = some d)
    (hs : d.status = DriverStatus.AVAILABLE) :
    ∃ t : Trip,
      (createTrip pricing st tripId slat slon dlat dlon pid did).1 =
        Except.ok t ∧
      t.status = TripStatus.ACTIVE ∧
      t.distance = calculate_haversine_distance slat slon dlat dlon ∧
      (slat = dlat ∧ slon = dlon → t.distance = 0) ∧
      findDriver (createTrip pricing st tripId slat slon dlat dlon pid did).2 did =
        some { d with status := DriverStatus.UNAVAILABLE } ∧
      (createTrip pricing st tripId slat slon dlat dlon pid did).2.passengers =
        st.passengers ∧
      (createTrip pricing st tripId slat slon dlat dlon pid did).2.trips =
        st.trips ++ [t] := by
  have hout : createTrip pricing st tripId slat slon dlat dlon pid did =
      (Except.ok
        { id := tripId, source_lat := slat, source_lon := slon,
          destination_lat := dlat, destination_lon := dlon,
          cost := pricing (calculate_haversine_distance slat slon dlat dlon),
          distance := calculate_haversine_distance slat slon dlat dlon,
          status := TripStatus.ACTIVE, driver := did, passenger := pid },
        saveTrip (setDriverStatus st did DriverStatus.UNAVAILABLE)
          { id := tripId, source_lat := slat, source_lon := slon,
            destination_lat := dlat, destination_lon := dlon,
            cost := pricing (calculate_haversine_distance slat slon dlat dlon),
            distance := calculate_haversine_distance slat slon dlat dlon,
            status := TripStatus.ACTIVE, driver := did, passenger := pid }) := by
    unfold createTrip
    rw [hp, hd]
    exact if_pos hs
  rw [hout]
  refine ⟨_, rfl, rfl, rfl, ?_, ?_, rfl, rfl⟩
  · rintro ⟨h1, h2⟩
    subst h1
    subst h2
    exact haversine_self slat slon
  · exact find?_updateBy_self Driver.id did
      (fun x => { x with status := DriverStatus.UNAVAILABLE })
      (fun x => rfl) st.drivers d hd

/-- Witness for C4: booking the AVAILABLE sample driver 1 for passenger 1
with source equal to destination. -/
theorem createTrip_available_success_witness :
    ∃ t : Trip,
      (createTrip (fun x => x) stSample 9 0 0 0 0 1 1).1 = Except.ok t ∧
      t.status = TripStatus.ACTIVE ∧
      t.distance = calculate_haversine_distance 0 0 0 0 ∧
      ((0:ℝ) = 0 ∧ (0:ℝ) = 0 → t.distance = 0) ∧
      findDriver (createTrip (fun x => x) stSample 9 0 0 0 0 1 1).2 1 =
        some { dAvail with status := DriverStatus.UNAVAILABLE } ∧
      (createTrip (fun x => x) stSample 9 0 0 0 0 1 1).2.passengers =
        stSample.passengers ∧
      (createTrip (fun x => x) stSample 9 0 0 0 0 1 1).2.trips =
        stSample.trips ++ [t] :=
  createTrip_available_success (fun x => x) stSample 9 0 0 0 0 1 1
    pSample dAvail rfl rfl rfl

/-- C1: EndTrip on an ACTIVE trip returns the trip with status END, stores
that updated trip, moves the assigned driver and the passenger to the trip's
destination, frees the driver (status AVAILABLE), and appends exactly one
new Bill referencing the trip. -/
theorem endTrip_active_effects (st : Store) (tripId billId : Nat) (t : Trip)
    (d : Driver) (p : Passenger)
    (ht : findTrip st tripId = some t)
    (hst : t.status = TripStatus.ACTIVE)
    (hd : findDriver st t.driver = some d)
    (hp : findPassenger st t.passenger = some p) :
    (endTrip st tripId billId).1 =
      Except.ok { t with status := TripStatus.END } ∧
    findTrip (endTrip st tripId billId).2 tripId =
      some { t with status := TripStatus.END } ∧
    findDriver (endTrip st tripId billId).2 t.driver =
      some { d with lat := t.destination_lat, lon := t.destination_lon,
                    status := DriverStatus.AVAILABLE } ∧
    findPassenger (endTrip st tripId billId).2 t.passenger =
      some { p with lat := t.destination_lat, lon := t.destination_lon } ∧
    (endTrip st tripId billId).2.bills =
      st.bills ++ [{ id := billId, trip := t.id, cost := t.cost }] := by
  have hid := findTrip_id ht
  subst hid
  have hne : ¬ t.status = TripStatus.END := by
    rw [hst]
    intro hc
    exact TripStatus.noConfusion hc
  have hout : endTrip st t.id billId =
      (Except.ok { t with status := TripStatus.END },
        saveBill
          (setDriverStatus
            (setPassengerPosition
              (setDriverPosition (setTripStatus st t.id TripStatus.END)
                t.driver t.destination_lat t.destination_lon)
              t.passenger t.destination_lat t.destination_lon)
            t.driver DriverStatus.AVAILABLE)
          { id := billId, trip := t.id, cost := t.cost }) := by
    unfold endTrip
    rw [ht]
    exact if_neg hne
  rw [hout]
  refine ⟨rfl, ?_, ?_, ?_, rfl⟩
  · exact find?_updateBy_self Trip.id t.id
      (fun x => { x with status := TripStatus.END }) (fun x => rfl) st.trips t ht
  · have h1 := find?_updateBy_self Driver.id t.driver
      (fun x => { x with lat := t.destination_lat, lon := t.destination_lon })
      (fun x => rfl) st.drivers d hd
    exact find?_updateBy_self Driver.id t.driver
      (fun x => { x with status := DriverStatus.AVAILABLE })
      (fun x => rfl) _ _ h1
  · exact find?_updateBy_self Passenger.id t.passenger
      (fun x => { x with lat := t.destination_lat, lon := t.destination_lon })
      (fun x => rfl) st.passengers p hp

/-- Witness for C1: ending the ACTIVE sample trip 1 (driver 2, passenger 1)
with bill id 7. -/
theorem endTrip_active_effects_witness :
    (endTrip stSample 1 7).1 =
      Except.ok { tActive with status := TripStatus.END } ∧
    findTrip (endTrip stSample 1 7).2 1 =
      some { tActive with status := TripStatus.END } ∧
    findDriver (endTrip stSample 1 7).2 tActive.driver =
      some { dBusy with lat := tActive.destination_lat,
                        lon := tActive.destination_lon,
                        status := DriverStatus.AVAILABLE } ∧
    findPassenger (endTrip stSample 1 7).2 tActive.passenger =
      some { pSample with lat := tActive.destination_lat,
                          lon := tActive.destination_lon } ∧
    (endTrip stSample 1 7).2.bills =
      stSample.bills ++ [{ id := 7, trip := tActive.id, cost := tActive.cost }] :=
  endTrip_active_effects stSample 1 7 tActive dBusy pSample rfl rfl rfl rfl

/-- C9: the serialization layer covers exactly Driver, Passenger and Trip —
no serializer exists for Bill — and the Trip serializer exposes exactly the
ten listed fields, leaving out the creation timestamp the Trip model
carries. -/
theorem serializers_no_bill_trip_fields_exact :
    coreSerializers.map ModelSerializer.model =
      [CoreModel.Driver, CoreModel.Passenger, CoreModel.Trip] ∧
    (∀ s ∈ coreSerializers, s.model ≠ CoreModel.Bill) ∧
    TripSerializer.fields = ["id", "source_lat", "source_lon",
      "destination_lat", "destination_lon", "cost", "distance", "status",
      "driver", "passenger"] ∧
    "created" ∈ tripModelFields ∧
    "created" ∉ TripSerializer.fields := by
  refine ⟨rfl, ?_, rfl, ?_, ?_⟩
  · intro s hs
    simp only [coreSerializers, List.mem_cons, List.not_mem_nil, or_false] at hs
    rcases hs with rfl | rfl | rfl
    · simp [DriverSerializer]
    · simp [PassengerSerializer]
    · simp [TripSerializer]
  · simp [tripModelFields]
  · simp [TripSerializer]
